import Mathlib

/-!
# Verification of the OEWS batch-request pipeline

A shallow embedding of `examples/batch_request.py`: the series-identifier
generator, the batch fetcher, the result reconciler, the labeling stage, the
wide-shaping stage (pandas `pivot_table`), and the CSV output stage, together
with theorems settling the specification's claims about them.

Conventions of the embedding:
* Python strings are `String`; Python `float` values are modelled as `Rat`
  (the script only ever parses finite decimal literals).
* A stage that can raise is a function into `Except String _`; a value that
  pandas would hold as `NaN`/`None` is an `Option _` that is `none`.
* Python dictionaries used as lookup tables are association lists.
-/

namespace BatchRequest

/-! ## Data model -/

/-- One element of `series['data']` in an API response: a time-stamped
observation `{period, year, value}` (the value still a raw string). -/
structure Observation where
  period : String
  year : String
  value : String
deriving DecidableEq, Repr

/-- One element of `data['Results']['series']`: a raw result record, an
identifier plus an ordered observation sequence. -/
structure RawSeries where
  seriesID : String
  data : List Observation
deriving DecidableEq, Repr

/-- One element of the script's `series_metadata` list: the generated
identifier together with the code triple that produced it. -/
structure SeriesMetadata where
  series_id : String
  state_code : String
  occupation_code : String
  datatype_code : String
deriving DecidableEq, Repr

/-- One element of `processed_data`: a reconciled flat record.  `value` is
`none` exactly when the source marked the value unavailable (`'-'`). -/
structure FlatRecord where
  series_id : String
  state_code : String
  occupation_code : String
  datatype_code : String
  year : String
  value : Option Rat
deriving DecidableEq, Repr

/-- A row of the DataFrame after the three label columns have been assigned
(`df['state_name'] = df['state_code'].map(...)` and its two siblings).  A
label is `none` when the code is absent from the mapping (pandas `NaN`). -/
structure LabeledRecord where
  series_id : String
  state_code : String
  occupation_code : String
  datatype_code : String
  year : String
  value : Option Rat
  state_name : Option String
  occupation_name : Option String
  datatype_name : Option String
deriving DecidableEq, Repr

/-! ## Series Identifier Generator (lines 27-49) -/

/-- `industry_code = '000000'  # All industries`. -/
def industry_code : String := "000000"

/-- `series_id = f"OEUS{state_code}{industry_code}{occ_code}{datatype}"`. -/
def mkSeriesId (state occ dt : String) : String :=
  "OEUS" ++ state ++ industry_code ++ occ ++ dt

/-- The iteration order of
`for state_code, occ_code, datatype in product(state_codes, occupation_codes, datatype_codes)`:
state (geography) outermost, then occupation, then datatype. -/
def codeTriples (state_codes occupation_codes datatype_codes : List String) :
    List (String × String × String) :=
  state_codes.flatMap fun s =>
    occupation_codes.flatMap fun o =>
      datatype_codes.map fun d => (s, o, d)

/-- The `series_ids` list accumulated by the generation loop. -/
def seriesIds (state_codes occupation_codes datatype_codes : List String) : List String :=
  (codeTriples state_codes occupation_codes datatype_codes).map fun t =>
    mkSeriesId t.1 t.2.1 t.2.2

/-- The `series_metadata` list accumulated by the generation loop, appended in
the same iteration order as `series_ids`. -/
def seriesMetadataOf (state_codes occupation_codes datatype_codes : List String) :
    List SeriesMetadata :=
  (codeTriples state_codes occupation_codes datatype_codes).map fun t =>
    { series_id := mkSeriesId t.1 t.2.1 t.2.2
      state_code := t.1
      occupation_code := t.2.1
      datatype_code := t.2.2 }

/-! ## Batch Fetcher (lines 54-86) -/

/-- `BATCH_SIZE = 50`. -/
def BATCH_SIZE : Nat := 50

/-- The values taken by `i` in `for i in range(0, len(series_ids), BATCH_SIZE)`:
`0, 50, 100, ...`, of which there are `⌈n / 50⌉ = (n + 49) / 50`. -/
def batchStarts (n : Nat) : List Nat :=
  List.range' 0 ((n + BATCH_SIZE - 1) / BATCH_SIZE) BATCH_SIZE

/-- The successive values of `batch = series_ids[i:i + BATCH_SIZE]`. -/
def batches (ids : List String) : List (List String) :=
  (batchStarts ids.length).map fun i => (ids.drop i).take BATCH_SIZE

/-- How many times `time.sleep(0.25)` runs: once per iteration satisfying
`i + BATCH_SIZE < len(series_ids)`. -/
def delayCount (n : Nat) : Nat :=
  ((batchStarts n).filter fun i => decide (i + BATCH_SIZE < n)).length

/-! ## Result Reconciler (lines 92-112) -/

/-- Model of Python's built-in `float()` restricted to finite decimal
literals: optional surrounding whitespace, an optional sign, digits with an
optional fractional part (at least one digit overall), and an optional
decimal exponent.  Special forms (`inf`, `nan`, underscores, hex) are not
modelled; the script's API values are plain decimals or the `'-'` sentinel,
which never reaches this function.  Returns `none` where `float()` raises
`ValueError`. -/
def digitsToNat (ds : List Char) : Nat :=
  ds.foldl (fun a c => 10 * a + (c.toNat - 48)) 0

def pyFloat (s : String) : Option Rat :=
  let cs := (((s.data.dropWhile Char.isWhitespace).reverse).dropWhile Char.isWhitespace).reverse
  let sgncs : Rat × List Char :=
    match cs with
    | '-' :: r => (-1, r)
    | '+' :: r => (1, r)
    | _ => (1, cs)
  let ip := sgncs.2.takeWhile Char.isDigit
  let rest1 := sgncs.2.dropWhile Char.isDigit
  let fprest : List Char × List Char :=
    match rest1 with
    | '.' :: r => (r.takeWhile Char.isDigit, r.dropWhile Char.isDigit)
    | _ => ([], rest1)
  if ip.isEmpty && fprest.1.isEmpty then none
  else
    let mant : Rat :=
      (digitsToNat ip : Rat) + (digitsToNat fprest.1 : Rat) / (10 : Rat) ^ fprest.1.length
    match fprest.2 with
    | [] => some (sgncs.1 * mant)
    | c :: r =>
      if c = 'e' ∨ c = 'E' then
        let esgnr : Bool × List Char :=
          match r with
          | '-' :: rr => (false, rr)
          | '+' :: rr => (true, rr)
          | _ => (true, r)
        let ed := esgnr.2.takeWhile Char.isDigit
        let rest2 := esgnr.2.dropWhile Char.isDigit
        if ed.isEmpty ∨ !rest2.isEmpty then none
        else
          let scale : Rat := (10 : Rat) ^ digitsToNat ed
          some (sgncs.1 * (if esgnr.1 then mant * scale else mant / scale))
      else none

/-- `float(data_point['value']) if data_point['value'] != '-' else None`:
the unavailable sentinel becomes an explicitly absent value; anything else is
parsed, and a parse failure raises (aborting the whole run). -/
def parseValue (v : String) : Except String (Option Rat) :=
  if v = "-" then .ok none
  else
    match pyFloat v with
    | some q => .ok (some q)
    | none => .error ("could not convert string to float: " ++ v)

/-- The inner loop `for data_point in series['data']` of the reconciler: every
observation whose `period` is `'A01'` contributes one flat record (there is no
`break`, so several matching observations contribute several records); a value
parse failure aborts. -/
def processObservations (sid : String) (m : SeriesMetadata) :
    List Observation → Except String (List FlatRecord)
  | [] => .ok []
  | d :: rest =>
    if d.period == "A01" then
      match parseValue d.value with
      | .error e => .error e
      | .ok v =>
        match processObservations sid m rest with
        | .error e => .error e
        | .ok more =>
          .ok ({ series_id := sid
                 state_code := m.state_code
                 occupation_code := m.occupation_code
                 datatype_code := m.datatype_code
                 year := d.year
                 value := v } :: more)
    else processObservations sid m rest

/-- One iteration of `for series in all_results`: look the identifier up with
`next((m for m in series_metadata if m['series_id'] == series_id), None)`
(first match in generation order) and `continue` with no records when the
lookup misses. -/
def processSeries (series_metadata : List SeriesMetadata) (s : RawSeries) :
    Except String (List FlatRecord) :=
  match series_metadata.find? (fun m => m.series_id == s.seriesID) with
  | none => .ok []
  | some m => processObservations s.seriesID m s.data

/-- The whole reconciliation loop: flat records are appended across series in
order, and the first uncaught `ValueError` aborts the run. -/
def processResults (series_metadata : List SeriesMetadata) :
    List RawSeries → Except String (List FlatRecord)
  | [] => .ok []
  | s :: rest =>
    match processSeries series_metadata s with
    | .error e => .error e
    | .ok here =>
      match processResults series_metadata rest with
      | .error e => .error e
      | .ok more => .ok (here ++ more)

/-! ## Label joining (lines 115-124) -/

/-- The three lookup tables `state_names`, `occupation_names`,
`datatype_names`, i.e. the Python dicts taken from the reference catalog,
modelled as association lists (dict keys are unique, so the first match is
the only one). -/
structure Catalog where
  state_names : List (String × String)
  occupation_names : List (String × String)
  datatype_names : List (String × String)
deriving Repr

/-- `pandas.Series.map(dict)`: a missing key maps to `NaN`, here `none`. -/
def lookupName (table : List (String × String)) (k : String) : Option String :=
  (table.find? (fun p => p.1 == k)).map (fun p => p.2)

/-- The effect of the three assignments
`df['state_name'] = df['state_code'].map(state_names)` etc. on one row. -/
def labelRecord (cat : Catalog) (r : FlatRecord) : LabeledRecord :=
  { series_id := r.series_id
    state_code := r.state_code
    occupation_code := r.occupation_code
    datatype_code := r.datatype_code
    year := r.year
    value := r.value
    state_name := lookupName cat.state_names r.state_code
    occupation_name := lookupName cat.occupation_names r.occupation_code
    datatype_name := lookupName cat.datatype_names r.datatype_code }

/-- The label-joining stage.  `pd.DataFrame([])` is a frame with *no
columns*, so when `processed_data` is empty the very first column selection
`df['state_code']` raises `KeyError`; otherwise every row (a dict with all
six keys) is labelled. -/
def addLabels (cat : Catalog) (records : List FlatRecord) :
    Except String (List LabeledRecord) :=
  match records with
  | [] => .error "KeyError: state_code"
  | _ => .ok (records.map (labelRecord cat))

/-! ## Report Shaper: `pivot_table` (lines 127-132)

`df.pivot_table(index=['state_name', 'occupation_name'],
columns='datatype_name', values='value', aggfunc='first').reset_index()`.

pandas semantics embedded here (defaults `dropna=True`, `sort=True`):
* rows whose group keys contain `NaN` are dropped by the groupby;
* `aggfunc='first'` takes the first *non-null* value of each
  `(state_name, occupation_name, datatype_name)` group;
* groups whose aggregate is `NaN` are dropped before unstacking
  (`agged.dropna(how='all')`), and all-`NaN` columns are dropped after
  (`table.dropna(how='all', axis=1)`);
* missing row/column combinations appear as `NaN` cells.
pandas additionally sorts the row index and the columns; the claims under
verification are order-independent, so rows and columns are kept here in
first-occurrence order. -/

/-- A surviving row of the grouped frame: all three group keys present. -/
structure PivotEntry where
  state_name : String
  occupation_name : String
  datatype_name : String
  value : Option Rat
deriving DecidableEq, Repr

/-- The rows entering the groupby: records with any `NaN` group key are
dropped (`groupby(..., dropna=True)`). -/
def pivotEntries (rs : List LabeledRecord) : List PivotEntry :=
  rs.filterMap fun r =>
    match r.state_name, r.occupation_name, r.datatype_name with
    | some a, some b, some c => some ⟨a, b, c, r.value⟩
    | _, _, _ => none

def entryKey (e : PivotEntry) : String × String × String :=
  (e.state_name, e.occupation_name, e.datatype_name)

/-- `groupby(keys).agg('first')` for one group: the first non-null `value`
among the entries with this key, `none` when every one is null or the group
is empty. -/
def firstValue (es : List PivotEntry) (k : String × String × String) : Option Rat :=
  ((es.filter fun e => decide (entryKey e = k)).filterMap fun e => e.value).head?

/-- The group keys surviving `agged.dropna(how='all')`: distinct keys whose
aggregated value is non-null. -/
def survivingKeys (es : List PivotEntry) : List (String × String × String) :=
  ((es.map entryKey).dedup).filter fun k => (firstValue es k).isSome

/-- The row index of the pivoted table: distinct
`(state_name, occupation_name)` pairs of the surviving groups. -/
def wideRows (rs : List LabeledRecord) : List (String × String) :=
  (((survivingKeys (pivotEntries rs)).map fun k => (k.1, k.2.1))).dedup

/-- The columns of the pivoted table: distinct `datatype_name` values of the
surviving groups. -/
def wideCols (rs : List LabeledRecord) : List String :=
  ((survivingKeys (pivotEntries rs)).map fun k => k.2.2).dedup

/-- The cell of the pivoted table at row `p` and column `c` (a `NaN` cell is
`none`). -/
def wideCell (rs : List LabeledRecord) (p : String × String) (c : String) : Option Rat :=
  firstValue (pivotEntries rs) (p.1, p.2, c)

/-! ## Output stage (lines 137-139) -/

/-- A row of `oews_batch_results.csv` as a typed tuple of the DataFrame's
nine columns at the time of `df.to_csv`. -/
structure OutputRow where
  series_id : String
  state_code : String
  occupation_code : String
  datatype_code : String
  year : String
  value : Option Rat
  state_name : Option String
  occupation_name : Option String
  datatype_name : Option String
deriving DecidableEq, Repr

/-- The columns of `df` when `df.to_csv(output_file, index=False)` runs: the
six keys of the `processed_data` dicts, in insertion order, followed by the
three label columns assigned afterwards. -/
def outputColumns : List String :=
  ["series_id", "state_code", "occupation_code", "datatype_code", "year", "value",
   "state_name", "occupation_name", "datatype_name"]

def outputRow (r : LabeledRecord) : OutputRow :=
  { series_id := r.series_id
    state_code := r.state_code
    occupation_code := r.occupation_code
    datatype_code := r.datatype_code
    year := r.year
    value := r.value
    state_name := r.state_name
    occupation_name := r.occupation_name
    datatype_name := r.datatype_name }

/-- Everything the tail of the script produces. -/
structure PipelineOutput where
  csvColumns : List String
  csvRows : List OutputRow
  wideRowCount : Nat
deriving Repr

/-- The pipeline from `processed_data` construction (line 92) to `to_csv`
(line 139): reconcile, build the DataFrame and join labels, pivot (whose
result is only printed), and write the CSV.  An uncaught exception anywhere
is an `Except.error`. -/
def pipelineAfterBatches (series_metadata : List SeriesMetadata) (cat : Catalog)
    (all_results : List RawSeries) : Except String PipelineOutput :=
  match processResults series_metadata all_results with
  | .error e => .error e
  | .ok processed =>
    match addLabels cat processed with
    | .error e => .error e
    | .ok labeled =>
      .ok { csvColumns := outputColumns
            csvRows := labeled.map outputRow
            wideRowCount := (wideRows labeled).length }

/-! ## Theorems -/

/-- The generation loop iterates the cartesian product `G × (O × D)`. -/
theorem codeTriples_eq_product (G O D : List String) :
    codeTriples G O D = G ×ˢ (O ×ˢ D) := by
  simp only [SProd.sprod, List.product, codeTriples, List.map_flatMap, List.map_map,
    Function.comp_def]

/-- C2: for code sets of sizes `g`, `o`, `d` the Series Identifier Generator
produces exactly `g*o*d` identifiers and `g*o*d` metadata records,
position-aligned, iterating geography outermost, then occupation, then
measure type, each identifier being
`"OEUS" ++ geography ++ "000000" ++ occupation ++ measure`; in particular
scenario A yields exactly the two identifiers shown. -/
theorem generator_count_alignment_order (G O D : List String) :
    (seriesIds G O D).length = G.length * O.length * D.length ∧
    (seriesMetadataOf G O D).length = G.length * O.length * D.length ∧
    (seriesMetadataOf G O D).map (fun m => m.series_id) = seriesIds G O D ∧
    seriesIds G O D =
      (G.flatMap fun s => O.flatMap fun o => D.map fun d =>
        "OEUS" ++ s ++ "000000" ++ o ++ d) ∧
    seriesIds ["06"] ["11-0000"] ["04", "13"] =
      ["OEUS0600000011-000004", "OEUS0600000011-000013"] := by
  have hlen : (codeTriples G O D).length = G.length * O.length * D.length := by
    rw [codeTriples_eq_product, List.length_product, List.length_product, Nat.mul_assoc]
  refine ⟨?_, ?_, ?_, ?_, rfl⟩
  · simpa [seriesIds] using hlen
  · simpa [seriesMetadataOf] using hlen
  · simp [seriesMetadataOf, seriesIds, List.map_map, Function.comp]
  · simp [seriesIds, codeTriples, List.map_flatMap, List.map_map, Function.comp_def,
      mkSeriesId, industry_code]

/-- Concatenation of the five identifier pieces is injective once the
geography codes and the occupation codes each have a fixed length. -/
theorem mkSeriesId_inj {s₁ o₁ d₁ s₂ o₂ d₂ : String}
    (hs : s₁.length = s₂.length) (ho : o₁.length = o₂.length)
    (h : mkSeriesId s₁ o₁ d₁ = mkSeriesId s₂ o₂ d₂) :
    s₁ = s₂ ∧ o₁ = o₂ ∧ d₁ = d₂ := by
  have hdata : "OEUS".data ++ (s₁.data ++ ("000000".data ++ (o₁.data ++ d₁.data))) =
      "OEUS".data ++ (s₂.data ++ ("000000".data ++ (o₂.data ++ d₂.data))) := by
    have h2 := congrArg String.data h
    simpa [mkSeriesId, industry_code, List.append_assoc] using h2
  have h1 := List.append_cancel_left hdata
  have hs' : s₁.data.length = s₂.data.length := hs
  obtain ⟨hseq, h2⟩ := List.append_inj h1 hs'
  have h3 := List.append_cancel_left h2
  have ho' : o₁.data.length = o₂.data.length := ho
  obtain ⟨hoeq, hdeq⟩ := List.append_inj h3 ho'
  exact ⟨String.ext hseq, String.ext hoeq, String.ext hdeq⟩

/-- C8 counterexample: three pairwise-unique input code sets for which the
generated identifiers are *not* pairwise distinct — codes of differing
lengths can make distinct triples concatenate to the same identifier, e.g.
`"0" ++ "000000" ++ "00000A"` and `"00" ++ "000000" ++ "0000A"`. -/
theorem seriesIds_duplicate_counterexample :
    (["0", "00"] : List String).Nodup ∧ (["00000A", "0000A"] : List String).Nodup ∧
    (["04"] : List String).Nodup ∧
    ¬ (seriesIds ["0", "00"] ["00000A", "0000A"] ["04"]).Nodup := by
  refine ⟨by decide, by decide, by decide, ?_⟩
  decide

/-- C8 amended: when the three input code sets contain only unique codes
*and* the geography codes all share one length and the occupation codes all
share one length (true of the real reference data: 2-character state codes,
7-character occupation codes), the generated identifiers are pairwise
distinct. -/
theorem seriesIds_nodup (G O D : List String)
    (hG : G.Nodup) (hO : O.Nodup) (hD : D.Nodup)
    (hGlen : ∀ s₁ ∈ G, ∀ s₂ ∈ G, s₁.length = s₂.length)
    (hOlen : ∀ o₁ ∈ O, ∀ o₂ ∈ O, o₁.length = o₂.length) :
    (seriesIds G O D).Nodup := by
  unfold seriesIds
  rw [codeTriples_eq_product]
  refine List.Nodup.map_on ?_ (hG.product (hO.product hD))
  rintro ⟨s₁, o₁, d₁⟩ h₁ ⟨s₂, o₂, d₂⟩ h₂ heq
  rw [List.mem_product] at h₁ h₂
  rw [List.mem_product] at h₁ h₂
  obtain ⟨hseq, hoeq, hdeq⟩ :=
    mkSeriesId_inj (hGlen _ h₁.1 _ h₂.1) (hOlen _ h₁.2.1 _ h₂.2.1) heq
  exact Prod.ext hseq (Prod.ext hoeq hdeq)

/-- Witness for the amended C8 at concrete unique, fixed-length code sets. -/
theorem seriesIds_nodup_witness :
    ((["06", "32"] : List String).Nodup ∧
      (["11-0000", "13-0000"] : List String).Nodup ∧
      (["04", "13"] : List String).Nodup ∧
      (∀ s₁ ∈ (["06", "32"] : List String), ∀ s₂ ∈ (["06", "32"] : List String),
        s₁.length = s₂.length) ∧
      (∀ o₁ ∈ (["11-0000", "13-0000"] : List String),
        ∀ o₂ ∈ (["11-0000", "13-0000"] : List String), o₁.length = o₂.length)) ∧
    (seriesIds ["06", "32"] ["11-0000", "13-0000"] ["04", "13"]).Nodup :=
  ⟨⟨by decide, by decide, by decide, by decide, by decide⟩,
    seriesIds_nodup _ _ _ (by decide) (by decide) (by decide) (by decide) (by decide)⟩

/-- With at most one batch's worth of identifiers, the loop runs once. -/
theorem batchStarts_of_le {n : Nat} (h1 : 1 ≤ n) (h2 : n ≤ BATCH_SIZE) :
    batchStarts n = [0] := by
  unfold batchStarts BATCH_SIZE at *
  have h3 : (n + 50 - 1) / 50 = 1 := by omega
  rw [h3]
  exact List.range'_one

/-- With more than one batch's worth, the loop peels one batch and the
remaining starts are the starts for the rest, shifted by `BATCH_SIZE`. -/
theorem batchStarts_of_gt {n : Nat} (h : BATCH_SIZE < n) :
    batchStarts n = 0 :: (batchStarts (n - BATCH_SIZE)).map (fun j => BATCH_SIZE + j) := by
  unfold batchStarts BATCH_SIZE at *
  have h1 : (n + 50 - 1) / 50 = (n - 50 + 50 - 1) / 50 + 1 := by omega
  rw [h1, List.range'_succ, List.map_add_range']

theorem batches_nil : batches [] = [] := rfl

theorem batches_small {l : List String} (h0 : l ≠ []) (h : l.length ≤ BATCH_SIZE) :
    batches l = [l] := by
  unfold batches
  rw [batchStarts_of_le (List.length_pos.mpr h0) h]
  simp [List.take_of_length_le h]

theorem batches_step {l : List String} (h : BATCH_SIZE < l.length) :
    batches l = l.take BATCH_SIZE :: batches (l.drop BATCH_SIZE) := by
  unfold batches
  rw [batchStarts_of_gt h]
  simp only [List.map_cons, List.map_map, List.drop_zero, List.length_drop]
  congr 1
  refine List.map_congr_left fun j _ => ?_
  simp [Function.comp, List.drop_drop, Nat.add_comm]

/-- The chunks are a partition of the identifier list: contiguous, in order,
nothing lost. -/
theorem flatten_batches (l : List String) : (batches l).flatten = l := by
  by_cases h50 : l.length ≤ BATCH_SIZE
  · by_cases h0 : l = []
    · subst h0; rfl
    · rw [batches_small h0 h50]; simp
  · push_neg at h50
    rw [batches_step h50]
    simp only [List.flatten_cons]
    rw [flatten_batches (l.drop BATCH_SIZE)]
    exact List.take_append_drop _ _
termination_by l.length
decreasing_by simp only [List.length_drop]; unfold BATCH_SIZE at *; omega

/-- One inter-batch delay between consecutive chunks and none after the
last: the number of sleeps is the number of batches minus one. -/
theorem delayCount_succ (n : Nat) (h : 1 ≤ n) :
    delayCount n + 1 = (batchStarts n).length := by
  by_cases h50 : n ≤ BATCH_SIZE
  · have hstarts := batchStarts_of_le h h50
    have hfalse : ¬ ((0 : Nat) + BATCH_SIZE < n) := by unfold BATCH_SIZE at *; omega
    have hfilter : List.filter (fun i => decide (i + BATCH_SIZE < n)) [0] = [] := by
      rw [List.filter_cons_of_neg (by simpa using hfalse)]
      rfl
    unfold delayCount
    rw [hstarts, hfilter]
    rfl
  · push_neg at h50
    have htrue : ((0 : Nat) + BATCH_SIZE < n) := by omega
    unfold delayCount
    rw [batchStarts_of_gt h50]
    rw [List.filter_cons_of_pos (by simpa using htrue)]
    simp only [List.length_cons, List.filter_map, List.length_map]
    have hcongr :
        ((batchStarts (n - BATCH_SIZE)).filter
            ((fun i => decide (i + BATCH_SIZE < n)) ∘ fun j => BATCH_SIZE + j)) =
          (batchStarts (n - BATCH_SIZE)).filter fun i => decide (i + BATCH_SIZE < n - BATCH_SIZE) := by
      refine List.filter_congr fun j _ => ?_
      simp only [Function.comp, decide_eq_decide]
      unfold BATCH_SIZE at *
      omega
    rw [hcongr]
    have ih := delayCount_succ (n - BATCH_SIZE) (by unfold BATCH_SIZE at *; omega)
    unfold delayCount at ih
    omega
termination_by n
decreasing_by unfold BATCH_SIZE at *; omega

/-- C3: the Batch Fetcher partitions the ordered identifier sequence into
contiguous in-order chunks of at most 50 identifiers; it observes one fixed
delay between consecutive chunks and none after the last; for 120
identifiers it submits exactly 3 batches of sizes 50, 50, 20 with exactly 2
delays. -/
theorem batchFetcher_spec :
    (∀ l : List String, (batches l).flatten = l ∧
      (∀ b ∈ batches l, b.length ≤ BATCH_SIZE) ∧
      (l ≠ [] → delayCount l.length + 1 = (batches l).length)) ∧
    (∀ l : List String, l.length = 120 →
      (batches l).map List.length = [50, 50, 20] ∧ (batches l).length = 3 ∧
      delayCount l.length = 2) := by
  constructor
  · intro l
    refine ⟨flatten_batches l, ?_, ?_⟩
    · intro b hb
      obtain ⟨i, _, rfl⟩ := List.mem_map.1 hb
      simp
    · intro h0
      rw [show (batches l).length = (batchStarts l.length).length by
        simp [batches]]
      exact delayCount_succ _ (List.length_pos.mpr h0)
  · intro l h
    have hs : batchStarts 120 = [0, 50, 100] := rfl
    refine ⟨?_, ?_, by rw [h]; decide⟩
    · unfold batches
      rw [h, hs]
      simp [List.length_take, List.length_drop, h, BATCH_SIZE]
    · unfold batches
      rw [h, hs]
      rfl

/-- Witness for C3 at a concrete list of 120 identifiers. -/
theorem batchFetcher_spec_witness :
    ((List.replicate 120 "id").length = 120 ∧ (List.replicate 120 "id" : List String) ≠ []) ∧
    ((batches (List.replicate 120 "id")).map List.length = [50, 50, 20] ∧
      (batches (List.replicate 120 "id")).length = 3 ∧
      delayCount (List.replicate 120 "id").length = 2) ∧
    delayCount (List.replicate 120 "id").length + 1 = (batches (List.replicate 120 "id")).length :=
  ⟨⟨by simp, by simp⟩,
    batchFetcher_spec.2 _ (by simp),
    (batchFetcher_spec.1 _).2.2 (by simp)⟩

/-- A successful pass over one record's observations yields one flat record
per annual observation. -/
theorem processObservations_ok_length (sid : String) (m : SeriesMetadata) :
    ∀ (data : List Observation) (l : List FlatRecord),
      processObservations sid m data = .ok l →
      l.length = (data.filter fun d => d.period == "A01").length := by
  intro data
  induction data with
  | nil =>
    intro l h
    rw [processObservations] at h
    cases h
    rfl
  | cons d rest ih =>
    intro l h
    rw [processObservations] at h
    rw [List.filter_cons]
    cases hp : (d.period == "A01") with
    | false =>
      rw [hp] at h
      simp only [Bool.false_eq_true, if_false] at h
      simp only [Bool.false_eq_true, if_false]
      exact ih l h
    | true =>
      rw [hp] at h
      simp only [if_true] at h
      simp only [if_true, List.length_cons]
      cases hv : parseValue d.value with
      | error e => rw [hv] at h; cases h
      | ok v =>
        rw [hv] at h
        cases hrest : processObservations sid m rest with
        | error e => rw [hrest] at h; cases h
        | ok more =>
          rw [hrest] at h
          cases h
          simp [ih more hrest]

/-- With no annual observation the pass contributes nothing. -/
theorem processObservations_no_annual (sid : String) (m : SeriesMetadata) :
    ∀ data : List Observation,
      (data.filter fun d => d.period == "A01") = [] →
      processObservations sid m data = .ok [] := by
  intro data
  induction data with
  | nil => intro _; rfl
  | cons d rest ih =>
    intro h
    rw [List.filter_cons] at h
    rw [processObservations]
    cases hp : (d.period == "A01") with
    | false =>
      rw [hp] at h
      simp only [Bool.false_eq_true, if_false] at h ⊢
      exact ih h
    | true =>
      rw [hp] at h
      simp at h

/-- Every record a successful pass emits carries the metadata's code triple
and the series identifier it was called with. -/
theorem processObservations_ok_mem (sid : String) (m : SeriesMetadata) :
    ∀ (data : List Observation) (l : List FlatRecord) (r : FlatRecord),
      processObservations sid m data = .ok l → r ∈ l →
      r.series_id = sid ∧ r.state_code = m.state_code ∧
        r.occupation_code = m.occupation_code ∧ r.datatype_code = m.datatype_code := by
  intro data
  induction data with
  | nil =>
    intro l r h hr
    rw [processObservations] at h
    cases h
    cases hr
  | cons d rest ih =>
    intro l r h hr
    rw [processObservations] at h
    cases hp : (d.period == "A01") with
    | false =>
      rw [hp] at h
      simp only [Bool.false_eq_true, if_false] at h
      exact ih l r h hr
    | true =>
      rw [hp] at h
      simp only [if_true] at h
      cases hv : parseValue d.value with
      | error e => rw [hv] at h; cases h
      | ok v =>
        rw [hv] at h
        cases hrest : processObservations sid m rest with
        | error e => rw [hrest] at h; cases h
        | ok more =>
          rw [hrest] at h
          cases h
          rcases List.mem_cons.mp hr with hr1 | hr2
          · subst hr1; exact ⟨rfl, rfl, rfl, rfl⟩
          · exact ih more r hrest hr2

/-- C1 counterexample: a Raw Result Record with matching metadata and *two*
observations whose period marker is `'A01'` produces *two* Flat Records, not
at most one — the reconciliation loop has no `break` after the first match. -/
theorem reconciler_two_annual_counterexample :
    (processSeries [⟨"S1", "06", "11-0000", "04"⟩]
        ⟨"S1", [⟨"A01", "2022", "1.0"⟩, ⟨"A01", "2023", "2.0"⟩]⟩).map
        (fun l => (l.length, l.map fun r => r.year)) =
      .ok (2, ["2022", "2023"]) := by
  rfl

/-- C1 amended: for a Raw Result Record with matching metadata the Result
Reconciler produces exactly one Flat Record per observation whose period
marker equals `'A01'` (so several such observations give several records),
and contributes nothing for the series when no such observation exists. -/
theorem reconciler_record_per_annual_observation
    (series_metadata : List SeriesMetadata) (s : RawSeries) (m : SeriesMetadata)
    (h : series_metadata.find? (fun x => x.series_id == s.seriesID) = some m) :
    (∀ l, processSeries series_metadata s = .ok l →
      l.length = (s.data.filter fun d => d.period == "A01").length) ∧
    ((s.data.filter fun d => d.period == "A01") = [] →
      processSeries series_metadata s = .ok []) := by
  unfold processSeries
  rw [h]
  exact ⟨fun l hl => processObservations_ok_length _ _ _ _ hl,
    fun hnone => processObservations_no_annual _ _ _ hnone⟩

/-- Witness for the amended C1: one annual observation among three gives one
record; a record with no annual observation gives none. -/
theorem reconciler_record_per_annual_observation_witness :
    (([⟨"S1", "06", "11-0000", "04"⟩] : List SeriesMetadata).find?
        (fun x => x.series_id == "S1") = some ⟨"S1", "06", "11-0000", "04"⟩) ∧
    ((∀ l, processSeries [⟨"S1", "06", "11-0000", "04"⟩]
          ⟨"S1", [⟨"M01", "2023", "9"⟩, ⟨"A01", "2023", "7"⟩, ⟨"M02", "2023", "9"⟩]⟩ = .ok l →
        l.length = ((([⟨"M01", "2023", "9"⟩, ⟨"A01", "2023", "7"⟩, ⟨"M02", "2023", "9"⟩] :
          List Observation)).filter fun d => d.period == "A01").length) ∧
      ((([⟨"M01", "2023", "9"⟩, ⟨"A01", "2023", "7"⟩, ⟨"M02", "2023", "9"⟩] :
          List Observation).filter fun d => d.period == "A01") = [] →
        processSeries [⟨"S1", "06", "11-0000", "04"⟩]
          ⟨"S1", [⟨"M01", "2023", "9"⟩, ⟨"A01", "2023", "7"⟩, ⟨"M02", "2023", "9"⟩]⟩ = .ok [])) :=
  ⟨rfl, reconciler_record_per_annual_observation _
    ⟨"S1", [⟨"M01", "2023", "9"⟩, ⟨"A01", "2023", "7"⟩, ⟨"M02", "2023", "9"⟩]⟩ _ rfl⟩

/-- C7: a Raw Result Record whose identifier matches no metadata record
yields zero Flat Records, raises nothing, and the loop continues with the
remaining records unchanged. -/
theorem reconciler_unmatched (series_metadata : List SeriesMetadata) (s : RawSeries)
    (rest : List RawSeries)
    (h : series_metadata.find? (fun m => m.series_id == s.seriesID) = none) :
    processSeries series_metadata s = .ok [] ∧
    processResults series_metadata (s :: rest) = processResults series_metadata rest := by
  have h1 : processSeries series_metadata s = .ok [] := by
    unfold processSeries
    rw [h]
  refine ⟨h1, ?_⟩
  rw [processResults, h1]
  cases h2 : processResults series_metadata rest <;> simp

/-- Witness for C7: an identifier generated nowhere is skipped silently. -/
theorem reconciler_unmatched_witness :
    (([⟨"S1", "06", "11-0000", "04"⟩] : List SeriesMetadata).find?
        (fun m => m.series_id == "S9") = none) ∧
    (processSeries [⟨"S1", "06", "11-0000", "04"⟩] ⟨"S9", [⟨"A01", "2023", "7"⟩]⟩ = .ok [] ∧
      processResults [⟨"S1", "06", "11-0000", "04"⟩]
          [⟨"S9", [⟨"A01", "2023", "7"⟩]⟩, ⟨"S1", [⟨"A01", "2023", "7"⟩]⟩] =
        processResults [⟨"S1", "06", "11-0000", "04"⟩] [⟨"S1", [⟨"A01", "2023", "7"⟩]⟩]) :=
  ⟨rfl, reconciler_unmatched _ ⟨"S9", [⟨"A01", "2023", "7"⟩]⟩ _ rfl⟩

/-- C10: metadata lookup is a linear scan in generation order taking the
first match, so every Flat Record of a series carries the code triple of the
earliest-generated metadata record with that identifier. -/
theorem reconciler_first_match (series_metadata : List SeriesMetadata) (s : RawSeries)
    (m : SeriesMetadata)
    (h : series_metadata.find? (fun x => x.series_id == s.seriesID) = some m) :
    m.series_id = s.seriesID ∧
    (∃ pre post, series_metadata = pre ++ m :: post ∧
      ∀ x ∈ pre, x.series_id ≠ s.seriesID) ∧
    (∀ l r, processSeries series_metadata s = .ok l → r ∈ l →
      r.state_code = m.state_code ∧ r.occupation_code = m.occupation_code ∧
        r.datatype_code = m.datatype_code) := by
  obtain ⟨hb, pre, post, hsplit, hpre⟩ := List.find?_eq_some.mp h
  refine ⟨by simpa using hb, ⟨pre, post, hsplit, ?_⟩, ?_⟩
  · intro x hx
    have := hpre x hx
    simpa using this
  · intro l r hl hr
    unfold processSeries at hl
    rw [h] at hl
    obtain ⟨_, h2, h3, h4⟩ := processObservations_ok_mem _ _ _ _ _ hl hr
    exact ⟨h2, h3, h4⟩

/-- Witness for C10: two metadata records share an identifier; the produced
Flat Record carries the first one's codes. -/
theorem reconciler_first_match_witness :
    (([⟨"S1", "06", "11-0000", "04"⟩, ⟨"S1", "95", "13-0000", "13"⟩] :
        List SeriesMetadata).find? (fun x => x.series_id == "S1") =
      some ⟨"S1", "06", "11-0000", "04"⟩) ∧
    (("S1" : String) = "S1" ∧
      (∃ pre post, ([⟨"S1", "06", "11-0000", "04"⟩, ⟨"S1", "95", "13-0000", "13"⟩] :
          List SeriesMetadata) = pre ++ ⟨"S1", "06", "11-0000", "04"⟩ :: post ∧
        ∀ x ∈ pre, x.series_id ≠ "S1") ∧
      (∀ l r, processSeries [⟨"S1", "06", "11-0000", "04"⟩, ⟨"S1", "95", "13-0000", "13"⟩]
            ⟨"S1", [⟨"A01", "2023", "7"⟩]⟩ = .ok l → r ∈ l →
        r.state_code = "06" ∧ r.occupation_code = "11-0000" ∧ r.datatype_code = "04")) :=
  ⟨rfl, reconciler_first_match
    [⟨"S1", "06", "11-0000", "04"⟩, ⟨"S1", "95", "13-0000", "13"⟩]
    ⟨"S1", [⟨"A01", "2023", "7"⟩]⟩ ⟨"S1", "06", "11-0000", "04"⟩ rfl⟩

/-- A non-sentinel, non-parsing value among the annual observations makes the
observation pass itself fail. -/
theorem processObservations_error_of_bad (sid : String) (m : SeriesMetadata) :
    ∀ (data : List Observation) (d : Observation), d ∈ data → d.period = "A01" →
      d.value ≠ "-" → pyFloat d.value = none →
      ∃ e, processObservations sid m data = .error e := by
  intro data
  induction data with
  | nil => intro d hd; cases hd
  | cons a rest ih =>
    intro d hd hp hs hf
    rw [processObservations]
    rcases List.mem_cons.mp hd with rfl | hd2
    · have hp' : (d.period == "A01") = true := by simpa using hp
      rw [hp', if_pos rfl]
      have hv : parseValue d.value = .error ("could not convert string to float: " ++ d.value) := by
        unfold parseValue
        rw [if_neg hs, hf]
      rw [hv]
      exact ⟨_, rfl⟩
    · cases hpa : (a.period == "A01") with
      | false =>
        simp only [Bool.false_eq_true, if_false]
        exact ih d hd2 hp hs hf
      | true =>
        simp only [if_true]
        cases hva : parseValue a.value with
        | error e => exact ⟨e, rfl⟩
        | ok v =>
          obtain ⟨e, he⟩ := ih d hd2 hp hs hf
          rw [he]
          exact ⟨e, rfl⟩

/-- A failing series fails the whole reconciliation stage: the loop has no
per-record recovery. -/
theorem processResults_error_of_series (series_metadata : List SeriesMetadata) :
    ∀ (results : List RawSeries) (s : RawSeries) (e : String), s ∈ results →
      processSeries series_metadata s = .error e →
      ∃ e', processResults series_metadata results = .error e' := by
  intro results
  induction results with
  | nil => intro s e hs; cases hs
  | cons a rest ih =>
    intro s e hs herr
    rw [processResults]
    rcases List.mem_cons.mp hs with rfl | hs2
    · rw [herr]
      exact ⟨e, rfl⟩
    · cases ha : processSeries series_metadata a with
      | error e2 => exact ⟨e2, rfl⟩
      | ok here =>
        obtain ⟨e', he'⟩ := ih s e hs2 herr
        rw [he']
        exact ⟨e', rfl⟩

/-- C6: an observation value equal to the unavailable sentinel `'-'` becomes
an explicitly absent value and raises nothing; any other value is parsed as a
decimal number; a non-sentinel value that does not parse aborts the entire
reconciliation stage, with no per-record recovery. -/
theorem valueParsing_spec :
    (parseValue "-" = .ok none) ∧
    (∀ v q, pyFloat v = some q → parseValue v = .ok (some q)) ∧
    (∀ v, v ≠ "-" → pyFloat v = none → ∃ e, parseValue v = .error e) ∧
    (∀ (series_metadata : List SeriesMetadata) (s : RawSeries) (m : SeriesMetadata) y,
      series_metadata.find? (fun x => x.series_id == s.seriesID) = some m →
      s.data = [⟨"A01", y, "-"⟩] →
      processSeries series_metadata s =
        .ok [⟨s.seriesID, m.state_code, m.occupation_code, m.datatype_code, y, none⟩]) ∧
    (∀ (series_metadata : List SeriesMetadata) (results : List RawSeries) (s : RawSeries),
      s ∈ results →
      (∃ m, series_metadata.find? (fun x => x.series_id == s.seriesID) = some m) →
      (∃ d ∈ s.data, d.period = "A01" ∧ d.value ≠ "-" ∧ pyFloat d.value = none) →
      ∃ e, processResults series_metadata results = .error e) := by
  refine ⟨rfl, ?_, ?_, ?_, ?_⟩
  · intro v q hq
    unfold parseValue
    by_cases hv : v = "-"
    · subst hv
      simp only [show pyFloat "-" = none from rfl] at hq
      cases hq
    · rw [if_neg hv, hq]
  · intro v hv hf
    unfold parseValue
    rw [if_neg hv, hf]
    exact ⟨_, rfl⟩
  · intro series_metadata s m y hfind hdata
    unfold processSeries
    rw [hfind, hdata]
    rfl
  · intro series_metadata results s hs ⟨m, hfind⟩ ⟨d, hd, hp, hsent, hfl⟩
    have hser : ∃ e, processSeries series_metadata s = .error e := by
      unfold processSeries
      rw [hfind]
      exact processObservations_error_of_bad _ _ _ d hd hp hsent hfl
    obtain ⟨e, he⟩ := hser
    exact processResults_error_of_series _ _ s e hs he

/-- Witness for C6: `'-'` yields an absent value; `"12.5"` parses; `"N/A"`
makes the run abort at reconciliation. -/
theorem valueParsing_spec_witness :
    (∃ q, pyFloat "12.5" = some q ∧ parseValue "12.5" = .ok (some q)) ∧
    (("N/A" : String) ≠ "-" ∧ pyFloat "N/A" = none ∧ ∃ e, parseValue "N/A" = .error e) ∧
    (processSeries [⟨"S1", "06", "11-0000", "04"⟩] ⟨"S1", [⟨"A01", "2023", "-"⟩]⟩ =
      .ok [⟨"S1", "06", "11-0000", "04", "2023", none⟩]) ∧
    (∃ e, processResults [⟨"S1", "06", "11-0000", "04"⟩]
        [⟨"S1", [⟨"A01", "2023", "N/A"⟩]⟩] = .error e) :=
  ⟨⟨_, rfl, valueParsing_spec.2.1 "12.5" _ rfl⟩,
    ⟨by decide, rfl, valueParsing_spec.2.2.1 "N/A" (by decide) rfl⟩,
    valueParsing_spec.2.2.2.1 [⟨"S1", "06", "11-0000", "04"⟩] ⟨"S1", [⟨"A01", "2023", "-"⟩]⟩
      ⟨"S1", "06", "11-0000", "04"⟩ "2023" rfl rfl,
    valueParsing_spec.2.2.2.2 [⟨"S1", "06", "11-0000", "04"⟩] _ ⟨"S1", [⟨"A01", "2023", "N/A"⟩]⟩
      (by simp) ⟨⟨"S1", "06", "11-0000", "04"⟩, rfl⟩
      ⟨⟨"A01", "2023", "N/A"⟩, by simp, rfl, by decide, rfl⟩⟩

/-- C4 counterexample: when every batch fails the results accumulator is
empty, `pd.DataFrame([])` has no columns, and the labeling stage's very first
column selection `df['state_code']` raises `KeyError` — the pipeline does
*not* run to completion on the empty outcome. -/
theorem pipeline_empty_counterexample :
    pipelineAfterBatches [] ⟨[], [], []⟩ [] = .error "KeyError: state_code" := by
  rfl

/-- C4 amended: once reconciliation succeeds with at least one Flat Record,
the labeling, reshaping, and output stages run to completion without
raising; when reconciliation yields zero Flat Records (for instance because
every batch failed), the labeling stage raises a key-lookup error. -/
theorem pipeline_total_after_batches (series_metadata : List SeriesMetadata) (cat : Catalog)
    (all_results : List RawSeries) (processed : List FlatRecord)
    (h : processResults series_metadata all_results = .ok processed) :
    (processed ≠ [] → ∃ out, pipelineAfterBatches series_metadata cat all_results = .ok out) ∧
    (processed = [] → ∃ e, pipelineAfterBatches series_metadata cat all_results = .error e) := by
  unfold pipelineAfterBatches
  rw [h]
  constructor
  · intro hne
    cases processed with
    | nil => exact absurd rfl hne
    | cons a t => exact ⟨_, rfl⟩
  · intro he
    subst he
    exact ⟨_, rfl⟩

/-- Witness for the amended C4: one reconciled record lets every later stage
finish; the empty case is exercised by the counterexample input shape. -/
theorem pipeline_total_after_batches_witness :
    (processResults [⟨"S1", "06", "11-0000", "04"⟩] [⟨"S1", [⟨"A01", "2023", "-"⟩]⟩] =
        .ok [⟨"S1", "06", "11-0000", "04", "2023", none⟩] ∧
      ([⟨"S1", "06", "11-0000", "04", "2023", none⟩] : List FlatRecord) ≠ []) ∧
    (∃ out, pipelineAfterBatches [⟨"S1", "06", "11-0000", "04"⟩]
        ⟨[("06", "California")], [("11-0000", "Management")], [("04", "Mean wage")]⟩
        [⟨"S1", [⟨"A01", "2023", "-"⟩]⟩] = .ok out) :=
  ⟨⟨rfl, by simp⟩,
    (pipeline_total_after_batches [⟨"S1", "06", "11-0000", "04"⟩]
        ⟨[("06", "California")], [("11-0000", "Management")], [("04", "Mean wage")]⟩
        [⟨"S1", [⟨"A01", "2023", "-"⟩]⟩] [⟨"S1", "06", "11-0000", "04", "2023", none⟩] rfl).1
      (by simp)⟩

/-- C5 counterexample: the CSV written by `df.to_csv` does not have exactly
the six claimed columns — by the time it is written, `df` also carries the
three human-readable name columns. -/
theorem outputColumns_counterexample :
    outputColumns ≠
      ["series_id", "state_code", "occupation_code", "datatype_code", "year", "value"] := by
  decide

/-- C5 amended: the output file contains one row per Flat Record — each row
the labelled image of its record — and its columns are the identifier, the
three codes, year and value, *plus* the three human-readable name columns
appended by the labeling stage. -/
theorem outputFile_shape (series_metadata : List SeriesMetadata) (cat : Catalog)
    (all_results : List RawSeries) (processed : List FlatRecord) (out : PipelineOutput)
    (h1 : processResults series_metadata all_results = .ok processed)
    (h2 : pipelineAfterBatches series_metadata cat all_results = .ok out) :
    out.csvRows.length = processed.length ∧
    out.csvRows = processed.map (fun r => outputRow (labelRecord cat r)) ∧
    out.csvColumns = ["series_id", "state_code", "occupation_code", "datatype_code",
      "year", "value", "state_name", "occupation_name", "datatype_name"] := by
  unfold pipelineAfterBatches at h2
  simp only [h1] at h2
  cases hal : addLabels cat processed with
  | error e => rw [hal] at h2; cases h2
  | ok labeled =>
    rw [hal] at h2
    cases h2
    have hlab : labeled = processed.map (labelRecord cat) := by
      cases processed with
      | nil => cases hal
      | cons a t =>
        unfold addLabels at hal
        cases hal
        rfl
    subst hlab
    refine ⟨by simp, by simp [List.map_map], rfl⟩

/-- Witness for the amended C5 at a one-record run. -/
theorem outputFile_shape_witness :
    (processResults [⟨"S1", "06", "11-0000", "04"⟩] [⟨"S1", [⟨"A01", "2023", "-"⟩]⟩] =
        .ok [⟨"S1", "06", "11-0000", "04", "2023", none⟩]) ∧
    (∀ out : PipelineOutput,
      pipelineAfterBatches [⟨"S1", "06", "11-0000", "04"⟩]
          ⟨[("06", "California")], [("11-0000", "Management")], [("04", "Mean wage")]⟩
          [⟨"S1", [⟨"A01", "2023", "-"⟩]⟩] = .ok out →
      out.csvRows.length = 1 ∧
      out.csvColumns = ["series_id", "state_code", "occupation_code", "datatype_code",
        "year", "value", "state_name", "occupation_name", "datatype_name"]) :=
  ⟨rfl, fun out hout =>
    ⟨((outputFile_shape [⟨"S1", "06", "11-0000", "04"⟩]
        ⟨[("06", "California")], [("11-0000", "Management")], [("04", "Mean wage")]⟩
        [⟨"S1", [⟨"A01", "2023", "-"⟩]⟩] [⟨"S1", "06", "11-0000", "04", "2023", none⟩]
        out rfl hout).1).trans rfl,
      (outputFile_shape [⟨"S1", "06", "11-0000", "04"⟩]
        ⟨[("06", "California")], [("11-0000", "Management")], [("04", "Mean wage")]⟩
        [⟨"S1", [⟨"A01", "2023", "-"⟩]⟩] [⟨"S1", "06", "11-0000", "04", "2023", none⟩]
        out rfl hout).2.2⟩⟩

/-- One step of the group aggregation: a matching entry with a present value
wins immediately; a matching entry with a null value or a non-matching entry
is passed over. -/
theorem firstValue_cons (a : PivotEntry) (es : List PivotEntry)
    (k : String × String × String) :
    firstValue (a :: es) k =
      if entryKey a = k then
        match a.value with
        | some w => some w
        | none => firstValue es k
      else firstValue es k := by
  unfold firstValue
  by_cases hk : entryKey a = k
  · rw [List.filter_cons_of_pos (by simpa using hk), if_pos hk]
    cases hav : a.value with
    | none => simp [List.filterMap_cons, hav]
    | some w => simp [List.filterMap_cons, hav]
  · rw [List.filter_cons_of_neg (by simpa using hk), if_neg hk]

/-- The aggregate of a group is present exactly when some entry of the group
has a present value. -/
theorem firstValue_isSome_iff (es : List PivotEntry) (k : String × String × String) :
    (firstValue es k).isSome = true ↔
      ∃ e ∈ es, entryKey e = k ∧ e.value.isSome = true := by
  induction es with
  | nil => simp [firstValue]
  | cons a es ih =>
    rw [firstValue_cons]
    by_cases hk : entryKey a = k
    · rw [if_pos hk]
      cases hav : a.value with
      | some w =>
        simp only [Option.isSome_some, true_iff]
        exact ⟨a, List.mem_cons_self _ _, hk, by simp [hav]⟩
      | none =>
        rw [ih]
        constructor
        · rintro ⟨e, he, hek, hev⟩
          exact ⟨e, List.mem_cons_of_mem _ he, hek, hev⟩
        · rintro ⟨e, he, hek, hev⟩
          rcases List.mem_cons.mp he with rfl | he2
          · rw [hav] at hev; cases hev
          · exact ⟨e, he2, hek, hev⟩
    · rw [if_neg hk, ih]
      constructor
      · rintro ⟨e, he, hek, hev⟩
        exact ⟨e, List.mem_cons_of_mem _ he, hek, hev⟩
      · rintro ⟨e, he, hek, hev⟩
        rcases List.mem_cons.mp he with rfl | he2
        · exact absurd hek hk
        · exact ⟨e, he2, hek, hev⟩

/-- `aggfunc='first'` characterised: the cell holds `v` exactly when some
entry of the group supplies `v` and every *earlier* entry of the group
supplies nothing (pandas `first` skips nulls, so a null-valued earlier entry
does not win). -/
theorem firstValue_eq_some_iff (es : List PivotEntry) (k : String × String × String)
    (v : Rat) :
    firstValue es k = some v ↔
      ∃ l₁ e l₂, es = l₁ ++ e :: l₂ ∧ entryKey e = k ∧ e.value = some v ∧
        ∀ e' ∈ l₁, entryKey e' = k → e'.value = none := by
  induction es with
  | nil =>
    constructor
    · intro h; simp [firstValue] at h
    · rintro ⟨l₁, e, l₂, h, -, -, -⟩
      exact absurd h.symm (List.append_ne_nil_of_right_ne_nil _ (List.cons_ne_nil _ _))
  | cons a es ih =>
    rw [firstValue_cons]
    by_cases hk : entryKey a = k
    · rw [if_pos hk]
      cases hav : a.value with
      | some w =>
        constructor
        · intro h
          cases h
          exact ⟨[], a, es, rfl, hk, hav, by intro e' he'; cases he'⟩
        · rintro ⟨l₁, e, l₂, hsplit, hek, hev, hcond⟩
          cases l₁ with
          | nil =>
            cases hsplit
            rw [hav] at hev
            cases hev
            rfl
          | cons b l₁ =>
            injection hsplit with hb hrest
            subst hb
            have := hcond a (List.mem_cons_self _ _) hk
            rw [hav] at this
            cases this
      | none =>
        rw [ih]
        constructor
        · rintro ⟨l₁, e, l₂, hsplit, hek, hev, hcond⟩
          refine ⟨a :: l₁, e, l₂, by rw [hsplit, List.cons_append], hek, hev, ?_⟩
          intro e' he'
          rcases List.mem_cons.mp he' with rfl | he2
          · intro _; exact hav
          · exact hcond e' he2
        · rintro ⟨l₁, e, l₂, hsplit, hek, hev, hcond⟩
          cases l₁ with
          | nil =>
            cases hsplit
            rw [hav] at hev
            cases hev
          | cons b l₁ =>
            injection hsplit with hb hrest
            subst hb
            exact ⟨l₁, e, l₂, hrest, hek, hev, fun e' he2 => hcond e' (List.mem_cons_of_mem _ he2)⟩
    · rw [if_neg hk, ih]
      constructor
      · rintro ⟨l₁, e, l₂, hsplit, hek, hev, hcond⟩
        refine ⟨a :: l₁, e, l₂, by rw [hsplit, List.cons_append], hek, hev, ?_⟩
        intro e' he'
        rcases List.mem_cons.mp he' with rfl | he2
        · intro hk'; exact absurd hk' hk
        · exact hcond e' he2
      · rintro ⟨l₁, e, l₂, hsplit, hek, hev, hcond⟩
        cases l₁ with
        | nil =>
          cases hsplit
          exact absurd hek hk
        | cons b l₁ =>
          injection hsplit with hb hrest
          subst hb
          exact ⟨l₁, e, l₂, hrest, hek, hev, fun e' he2 => hcond e' (List.mem_cons_of_mem _ he2)⟩

/-- A pair is a row of the pivoted table exactly when some column has a
present cell for it. -/
theorem mem_wideRows_iff (rs : List LabeledRecord) (p : String × String) :
    p ∈ wideRows rs ↔ ∃ c, (wideCell rs p c).isSome = true := by
  unfold wideRows wideCell
  rw [List.mem_dedup]
  constructor
  · intro hp
    obtain ⟨k, hk, hpk⟩ := List.mem_map.mp hp
    obtain ⟨k1, k2, k3⟩ := k
    obtain rfl : p = (k1, k2) := hpk.symm
    unfold survivingKeys at hk
    rw [List.mem_filter] at hk
    exact ⟨k3, hk.2⟩
  · rintro ⟨c, hc⟩
    obtain ⟨e, he, hek, hev⟩ := (firstValue_isSome_iff _ _).mp hc
    refine List.mem_map.mpr ⟨(p.1, p.2, c), ?_, rfl⟩
    unfold survivingKeys
    rw [List.mem_filter, List.mem_dedup]
    exact ⟨List.mem_map.mpr ⟨e, he, hek⟩, hc⟩

/-- A measure-type name is a column of the pivoted table exactly when some
pair has a present cell in it. -/
theorem mem_wideCols_iff (rs : List LabeledRecord) (c : String) :
    c ∈ wideCols rs ↔ ∃ p : String × String, (wideCell rs p c).isSome = true := by
  unfold wideCols wideCell
  rw [List.mem_dedup]
  constructor
  · intro hc
    obtain ⟨k, hk, hck⟩ := List.mem_map.mp hc
    obtain ⟨k1, k2, k3⟩ := k
    cases hck
    unfold survivingKeys at hk
    rw [List.mem_filter] at hk
    exact ⟨(k1, k2), hk.2⟩
  · rintro ⟨p, hp⟩
    obtain ⟨e, he, hek, hev⟩ := (firstValue_isSome_iff _ _).mp hp
    refine List.mem_map.mpr ⟨(p.1, p.2, c), ?_, rfl⟩
    unfold survivingKeys
    rw [List.mem_filter, List.mem_dedup]
    exact ⟨List.mem_map.mpr ⟨e, he, hek⟩, hp⟩

/-- C9 counterexample: one Flat Record whose (mapped) pair is present but
whose only value is absent.  `aggfunc='first'` aggregates the single group to
`NaN`, `dropna=True` then drops it, and the pivoted table has *zero* rows and
*zero* columns — the claim promises one row for the pair and one column for
the measure-type name. -/
theorem reportShaper_dropped_row_counterexample :
    (([⟨"id", "06", "11-0000", "04", "2023", none,
        some "CA", some "Mgmt", some "Mean"⟩] : List LabeledRecord).map
      fun r => (r.state_name, r.occupation_name, r.datatype_name)) =
        [(some "CA", some "Mgmt", some "Mean")] ∧
    wideRows [⟨"id", "06", "11-0000", "04", "2023", none,
        some "CA", some "Mgmt", some "Mean"⟩] = [] ∧
    wideCols [⟨"id", "06", "11-0000", "04", "2023", none,
        some "CA", some "Mgmt", some "Mean"⟩] = [] := by
  exact ⟨rfl, rfl, rfl⟩

/-- C9 amended: the Report Shaper produces exactly one wide row per distinct
(geographic name, occupation name) pair *having at least one present value*,
and one column per distinct measure-type name *having at least one present
value*; a cell holds the first present value supplied for its key/column
combination in record order (pandas `first` skips absent values); a pair
lacking any present value for some column keeps its row with an empty cell
there. -/
theorem reportShaper_spec (rs : List LabeledRecord) :
    (wideRows rs).Nodup ∧ (wideCols rs).Nodup ∧
    (∀ p, p ∈ wideRows rs ↔ ∃ c, (wideCell rs p c).isSome = true) ∧
    (∀ c, c ∈ wideCols rs ↔ ∃ p : String × String, (wideCell rs p c).isSome = true) ∧
    (∀ p c (v : Rat), wideCell rs p c = some v ↔
      ∃ l₁ e l₂, pivotEntries rs = l₁ ++ e :: l₂ ∧ entryKey e = (p.1, p.2, c) ∧
        e.value = some v ∧ ∀ e' ∈ l₁, entryKey e' = (p.1, p.2, c) → e'.value = none) ∧
    (∀ p c, (¬ ∃ e ∈ pivotEntries rs, entryKey e = (p.1, p.2, c) ∧ e.value.isSome = true) →
      wideCell rs p c = none) := by
  refine ⟨List.nodup_dedup _, List.nodup_dedup _, mem_wideRows_iff rs, mem_wideCols_iff rs,
    fun p c v => firstValue_eq_some_iff _ _ _, fun p c h => ?_⟩
  have h2 : ¬ (firstValue (pivotEntries rs) (p.1, p.2, c)).isSome = true :=
    fun hs => h ((firstValue_isSome_iff _ _).mp hs)
  unfold wideCell
  exact Option.not_isSome_iff_eq_none.mp h2

/-- Witness for the amended C9: two measure names on one pair give one row
with two populated cells; a second pair missing one measure name keeps its
row with an empty cell. -/
theorem reportShaper_spec_witness :
    (¬ ∃ e ∈ pivotEntries
        [⟨"id1", "06", "11-0000", "04", "2023", some 5, some "CA", some "Mgmt", some "Mean"⟩,
         ⟨"id2", "06", "11-0000", "13", "2023", some 6, some "CA", some "Mgmt", some "Median"⟩,
         ⟨"id3", "95", "13-0000", "04", "2023", some 7, some "NV", some "Biz", some "Mean"⟩],
      entryKey e = ("NV", "Biz", "Median") ∧ e.value.isSome = true) ∧
    wideCell
        [⟨"id1", "06", "11-0000", "04", "2023", some 5, some "CA", some "Mgmt", some "Mean"⟩,
         ⟨"id2", "06", "11-0000", "13", "2023", some 6, some "CA", some "Mgmt", some "Median"⟩,
         ⟨"id3", "95", "13-0000", "04", "2023", some 7, some "NV", some "Biz", some "Mean"⟩]
        ("NV", "Biz") "Median" = none ∧
    ("NV", "Biz") ∈ wideRows
        [⟨"id1", "06", "11-0000", "04", "2023", some 5, some "CA", some "Mgmt", some "Mean"⟩,
         ⟨"id2", "06", "11-0000", "13", "2023", some 6, some "CA", some "Mgmt", some "Median"⟩,
         ⟨"id3", "95", "13-0000", "04", "2023", some 7, some "NV", some "Biz", some "Mean"⟩] ∧
    (wideRows
        [⟨"id1", "06", "11-0000", "04", "2023", some 5, some "CA", some "Mgmt", some "Mean"⟩,
         ⟨"id2", "06", "11-0000", "13", "2023", some 6, some "CA", some "Mgmt", some "Median"⟩,
         ⟨"id3", "95", "13-0000", "04", "2023", some 7, some "NV", some "Biz", some "Mean"⟩]).length
      = 2 :=
  ⟨by decide,
    (reportShaper_spec _).2.2.2.2.2 ("NV", "Biz") "Median" (by decide),
    by decide, by decide⟩

end BatchRequest
